import Mathlib

/-!
Verification of the agent lifecycle router
(`src/server/routers/lambda/market/agent.ts`).

The file shallowly embeds the router: JavaScript values are `JsonValue`,
an awaited SDK result (which may be `undefined`) is `JsResult`, a thrown
value is `JsThrown`, and each tRPC procedure body becomes a Lean function
that returns either a normalized `TRPCError` or a result, together with
the list of Marketplace-Gateway calls it performed.  Zod schemas become
`List SchemaField` values validated by `zodParse`.
-/

/-- A JavaScript (JSON-like) value.  `nullV` is JavaScript `null`;
`undefined` is represented separately by `JsResult.undefVal` where it can
occur (an awaited SDK result). -/
inductive JsonValue where
  | str (s : String)
  | num (n : Int)
  | bool (b : Bool)
  | arr (xs : List JsonValue)
  | obj (fields : List (String × JsonValue))
  | nullV
deriving Repr

/-- A raw JavaScript object: an association list of fields. -/
abbrev RawObj := List (String × JsonValue)

/-- The value an awaited SDK call evaluates to: either `undefined` or a
proper JavaScript value (possibly `null`). -/
inductive JsResult where
  | undefVal
  | val (v : JsonValue)
deriving Repr

/-- A thrown JavaScript value: either an `Error` instance (carrying its
`name`, used to classify gateway error kinds, and its `message`), or any
other value (`throw "boom"` is legal JavaScript). -/
inductive JsThrown where
  | errObj (name : String) (message : String)
  | other (v : JsonValue)
deriving Repr

/-- Returns `true` iff the value is a string (`z.string()` check). -/
def JsonValue.isStr : JsonValue → Bool
  | .str _ => true
  | _ => false

/-- Returns `true` iff the value is a number (`z.number()` check). -/
def JsonValue.isNum : JsonValue → Bool
  | .num _ => true
  | _ => false

/-- Returns `true` iff the value is a boolean (`z.boolean()` check). -/
def JsonValue.isBool : JsonValue → Bool
  | .bool _ => true
  | _ => false

/-- Returns `true` iff the value is a plain object (`z.record(z.any())` check). -/
def JsonValue.isObj : JsonValue → Bool
  | .obj _ => true
  | _ => false

/-- The type checked for a single schema field, mirroring the zod
combinators that appear in `agent.ts`. -/
inductive FieldSpec where
  | str
  | num
  | bool
  | strEnum (allowed : List String)
  | recordAny
  | arrStr
  | arrRecordAny

/-- Whether a present value satisfies a field's type check. -/
def checkValue (fs : FieldSpec) (v : JsonValue) : Bool :=
  match fs with
  | .str => v.isStr
  | .num => v.isNum
  | .bool => v.isBool
  | .strEnum allowed =>
    match v with
    | .str s => allowed.contains s
    | _ => false
  | .recordAny => v.isObj
  | .arrStr =>
    match v with
    | .arr xs => xs.all JsonValue.isStr
    | _ => false
  | .arrRecordAny =>
    match v with
    | .arr xs => xs.all JsonValue.isObj
    | _ => false

/-- One field of a zod object schema: key, type check, and whether the
field is required (no `.optional()`). -/
structure SchemaField where
  key : String
  spec : FieldSpec
  required : Bool

/-- SchemaField lookup in a raw object (JavaScript property access). -/
def lookupField (o : RawObj) (k : String) : Option JsonValue :=
  o.lookup k

/-- Whether a raw object satisfies one field of a schema: a missing key
is accepted iff the field is optional; a present value must pass the
field's type check. -/
def checkField (o : RawObj) (f : SchemaField) : Bool :=
  match lookupField o f.key with
  | none => !f.required
  | some v => checkValue f.spec v

/-- All fields of the schema that fail on the given object — zod's
`ZodObject` checks every key of its shape and collects an issue per
failing key rather than stopping at the first failure. -/
def schemaIssues (s : List SchemaField) (o : RawObj) : List String :=
  (s.filter (fun f => !checkField o f)).map (fun f => f.key)

/-- zod object parsing: succeeds iff no field fails; on success the
object is returned with unknown keys stripped (zod's default), on
failure the full list of failing fields is reported. -/
def zodParse (s : List SchemaField) (o : RawObj) : Except (List String) RawObj :=
  match schemaIssues s o with
  | [] => .ok (o.filter (fun kv => s.any (fun f => f.key == kv.1)))
  | issues => .error issues

/-- Schema `createAgentSchema` from `agent.ts` (fields in source order). -/
def createAgentSchema : List SchemaField := [
  ⟨"homepage", .str, false⟩,
  ⟨"identifier", .str, true⟩,
  ⟨"isFeatured", .bool, false⟩,
  ⟨"name", .str, true⟩,
  ⟨"status", .strEnum ["published", "unpublished", "archived", "deprecated"], false⟩,
  ⟨"tokenUsage", .num, false⟩,
  ⟨"visibility", .strEnum ["public", "private", "internal"], false⟩]

/-- Schema `createAgentVersionSchema` from `agent.ts` (fields in source order). -/
def createAgentVersionSchema : List SchemaField := [
  ⟨"a2aProtocolVersion", .str, false⟩,
  ⟨"avatar", .str, false⟩,
  ⟨"category", .str, false⟩,
  ⟨"changelog", .str, false⟩,
  ⟨"config", .recordAny, false⟩,
  ⟨"defaultInputModes", .arrStr, false⟩,
  ⟨"defaultOutputModes", .arrStr, false⟩,
  ⟨"description", .str, false⟩,
  ⟨"documentationUrl", .str, false⟩,
  ⟨"extensions", .arrRecordAny, false⟩,
  ⟨"hasPushNotifications", .bool, false⟩,
  ⟨"hasStateTransitionHistory", .bool, false⟩,
  ⟨"hasStreaming", .bool, false⟩,
  ⟨"identifier", .str, true⟩,
  ⟨"interfaces", .arrRecordAny, false⟩,
  ⟨"name", .str, false⟩,
  ⟨"preferredTransport", .str, false⟩,
  ⟨"providerId", .num, false⟩,
  ⟨"securityRequirements", .arrRecordAny, false⟩,
  ⟨"securitySchemes", .recordAny, false⟩,
  ⟨"setAsCurrent", .bool, false⟩,
  ⟨"summary", .str, false⟩,
  ⟨"supportsAuthenticatedExtendedCard", .bool, false⟩,
  ⟨"tokenUsage", .num, false⟩,
  ⟨"url", .str, false⟩]

/-- The inline `z.object({ identifier: z.string() })` schema used by the
transition operations and `getAgentDetail`. -/
def identifierSchema : List SchemaField := [⟨"identifier", .str, true⟩]

/-- Schema `paginationSchema` from `agent.ts`. -/
def paginationSchema : List SchemaField := [
  ⟨"page", .num, false⟩,
  ⟨"pageSize", .num, false⟩]

/-- The names of the tRPC procedures defined by `agentRouter`. -/
inductive OpName where
  | createAgent
  | createAgentVersion
  | deprecateAgent
  | getAgentDetail
  | getOwnAgents
  | publishAgent
  | unpublishAgent
deriving DecidableEq

/-- The fixed set of Marketplace-Gateway (MarketSDK `agents`) methods the
router calls; no other gateway method appears anywhere in `agent.ts`. -/
inductive GatewayMethod where
  | createAgent
  | createAgentVersion
  | deprecate
  | publish
  | unpublish
  | getAgentDetail
  | getOwnAgents
deriving DecidableEq

/-- The argument a router handler passes to a gateway method. -/
inductive GatewayArg where
  | objArg (o : RawObj)
  | idArg (identifier : String)
  | pageArg (page pageSize : Option Int)

/-- One call performed against the Marketplace Gateway. -/
structure GatewayCall where
  method : GatewayMethod
  arg : GatewayArg

/-- What a single gateway call does from the caller's side: resolve with
a result or reject with a thrown value. -/
abbrev GatewayOutcome := Except JsThrown JsResult

/-- A gateway oracle: the outcome of each call during one invocation. -/
abbrev Gateway := GatewayCall → GatewayOutcome

/-- The external error codes of the tRPC error envelope that this router
(and its modelled procedure pipeline) can surface. -/
inductive ErrorCode where
  | INTERNAL_SERVER_ERROR
  | BAD_REQUEST
  | UNAUTHORIZED
deriving DecidableEq

/-- The normalized error thrown by the router: `new TRPCError({ cause,
code, message })`.  `cause` is `none` for errors raised locally by the
procedure pipeline (before any handler body runs). -/
structure TRPCError where
  code : ErrorCode
  message : String
  cause : Option JsThrown

/-- JavaScript nullish coalescing `r ?? d` applied to an awaited result:
`undefined` and `null` are replaced by the default, any other value is
kept. -/
def coalesce (r : JsResult) (d : JsonValue) : JsonValue :=
  match r with
  | .undefVal => d
  | .val .nullV => d
  | .val v => v

/-- The literal `{ success: true }` used as the coalescing default in the
three transition handlers. -/
def successTrue : JsonValue := .obj [("success", .bool true)]

/-- Computes `error instanceof Error ? error.message : fallback` — the
message computation of every catch block in `agent.ts`. -/
def thrownMessage (e : JsThrown) (fallback : String) : String :=
  match e with
  | .errObj _ m => m
  | .other _ => fallback

/-- What a router handler produces: the value returned to tRPC or the
thrown `TRPCError`, together with the gateway calls performed. -/
abbrev HandlerResult := Except TRPCError JsResult × List GatewayCall

/-- Builds the `TRPCError` of a catch block: code fixed to
`INTERNAL_SERVER_ERROR`, message from the thrown error with the
operation's fallback, and the original error attached as `cause`. -/
def normalizedError (fallback : String) (e : JsThrown) : TRPCError :=
  ⟨.INTERNAL_SERVER_ERROR, thrownMessage e fallback, some e⟩

/-- Handler body of `createAgent`: exactly one
`ctx.marketSDK.agents.createAgent(input)` call (performed whether the
try block succeeds or throws); the response is returned unchanged; a
thrown error is normalized with fallback "Failed to create agent". -/
def createAgent (gw : Gateway) (input : RawObj) : HandlerResult :=
  let c : GatewayCall := ⟨.createAgent, .objArg input⟩
  (match gw c with
   | .ok r => .ok r
   | .error e => .error (normalizedError "Failed to create agent" e), [c])

/-- Handler body of `createAgentVersion`: exactly one
`ctx.marketSDK.agents.createAgentVersion(input)` call; the response is
returned unchanged; fallback "Failed to create agent version". -/
def createAgentVersion (gw : Gateway) (input : RawObj) : HandlerResult :=
  let c : GatewayCall := ⟨.createAgentVersion, .objArg input⟩
  (match gw c with
   | .ok r => .ok r
   | .error e => .error (normalizedError "Failed to create agent version" e), [c])

/-- Handler body of `deprecateAgent`: exactly one
`ctx.marketSDK.agents.deprecate(input.identifier)` call; returns
`response ?? { success: true }`; fallback "Failed to deprecate agent". -/
def deprecateAgent (gw : Gateway) (identifier : String) : HandlerResult :=
  let c : GatewayCall := ⟨.deprecate, .idArg identifier⟩
  (match gw c with
   | .ok r => .ok (.val (coalesce r successTrue))
   | .error e => .error (normalizedError "Failed to deprecate agent" e), [c])

/-- Handler body of `getAgentDetail`: exactly one
`ctx.marketSDK.agents.getAgentDetail(input.identifier)` call; the
response is returned unchanged; fallback "Failed to get agent detail". -/
def getAgentDetail (gw : Gateway) (identifier : String) : HandlerResult :=
  let c : GatewayCall := ⟨.getAgentDetail, .idArg identifier⟩
  (match gw c with
   | .ok r => .ok r
   | .error e => .error (normalizedError "Failed to get agent detail" e), [c])

/-- Handler body of `getOwnAgents`: exactly one
`ctx.marketSDK.agents.getOwnAgents({ page: input?.page, pageSize:
input?.pageSize })` call; the response is returned unchanged; fallback
"Failed to get own agents". -/
def getOwnAgents (gw : Gateway) (page pageSize : Option Int) : HandlerResult :=
  let c : GatewayCall := ⟨.getOwnAgents, .pageArg page pageSize⟩
  (match gw c with
   | .ok r => .ok r
   | .error e => .error (normalizedError "Failed to get own agents" e), [c])

/-- Handler body of `publishAgent`: exactly one
`ctx.marketSDK.agents.publish(input.identifier)` call; returns
`response ?? { success: true }`; fallback "Failed to publish agent". -/
def publishAgent (gw : Gateway) (identifier : String) : HandlerResult :=
  let c : GatewayCall := ⟨.publish, .idArg identifier⟩
  (match gw c with
   | .ok r => .ok (.val (coalesce r successTrue))
   | .error e => .error (normalizedError "Failed to publish agent" e), [c])

/-- Handler body of `unpublishAgent`: exactly one
`ctx.marketSDK.agents.unpublish(input.identifier)` call; returns
`response ?? { success: true }`; fallback "Failed to unpublish agent". -/
def unpublishAgent (gw : Gateway) (identifier : String) : HandlerResult :=
  let c : GatewayCall := ⟨.unpublish, .idArg identifier⟩
  (match gw c with
   | .ok r => .ok (.val (coalesce r successTrue))
   | .error e => .error (normalizedError "Failed to unpublish agent" e), [c])

/-- The validated, typed input a handler body receives: the parsed object
for the two create operations, the extracted `identifier` string for the
transition and detail operations, and the optional `page`/`pageSize`
pair for `getOwnAgents`. -/
inductive ParsedInput where
  | objIn (o : RawObj)
  | idIn (identifier : String)
  | pageIn (page pageSize : Option Int)

/-- Whether a parsed input has the shape the named operation's handler
expects (the shape `parseOp` produces for that operation). -/
def inputShapeOk : OpName → ParsedInput → Bool
  | .createAgent, .objIn _ => true
  | .createAgentVersion, .objIn _ => true
  | .deprecateAgent, .idIn _ => true
  | .publishAgent, .idIn _ => true
  | .unpublishAgent, .idIn _ => true
  | .getAgentDetail, .idIn _ => true
  | .getOwnAgents, .pageIn _ _ => true
  | _, _ => false

/-- The three lifecycle transition operations. -/
def isTransition : OpName → Bool
  | .deprecateAgent | .publishAgent | .unpublishAgent => true
  | _ => false

/-- The gateway method each operation calls — the correspondence between
router procedure names and MarketSDK `agents` methods in `agent.ts`. -/
def methodFor : OpName → GatewayMethod
  | .createAgent => .createAgent
  | .createAgentVersion => .createAgentVersion
  | .deprecateAgent => .deprecate
  | .getAgentDetail => .getAgentDetail
  | .getOwnAgents => .getOwnAgents
  | .publishAgent => .publish
  | .unpublishAgent => .unpublish

/-- The generic per-operation fallback message of each catch block. -/
def fallbackFor : OpName → String
  | .createAgent => "Failed to create agent"
  | .createAgentVersion => "Failed to create agent version"
  | .deprecateAgent => "Failed to deprecate agent"
  | .getAgentDetail => "Failed to get agent detail"
  | .getOwnAgents => "Failed to get own agents"
  | .publishAgent => "Failed to publish agent"
  | .unpublishAgent => "Failed to unpublish agent"

/-- Optional numeric property read (`input?.page` on a parsed object). -/
def getNumField (o : RawObj) (k : String) : Option Int :=
  match lookupField o k with
  | some (.num n) => some n
  | _ => none

/-- Input validation of one operation applied to the raw request input
(`undefined` or a JavaScript value): the zod schema attached by
`.input(...)` in `agent.ts`.  A non-object where an object is required
fails with a single root issue, reported here as "input". -/
def parseOp : OpName → JsResult → Except (List String) ParsedInput
  | .createAgent, .val (.obj o) => (zodParse createAgentSchema o).map .objIn
  | .createAgent, _ => .error ["input"]
  | .createAgentVersion, .val (.obj o) =>
    (zodParse createAgentVersionSchema o).map .objIn
  | .createAgentVersion, _ => .error ["input"]
  | .deprecateAgent, r => parseIdentifierInput r
  | .publishAgent, r => parseIdentifierInput r
  | .unpublishAgent, r => parseIdentifierInput r
  | .getAgentDetail, r => parseIdentifierInput r
  | .getOwnAgents, .undefVal => .ok (.pageIn none none)
  | .getOwnAgents, .val (.obj o) =>
    match zodParse paginationSchema o with
    | .error issues => .error issues
    | .ok _ => .ok (.pageIn (getNumField o "page") (getNumField o "pageSize"))
  | .getOwnAgents, _ => .error ["input"]
where
  /-- Validation against `z.object({ identifier: z.string() })` followed
  by the `input.identifier` read the handlers perform. -/
  parseIdentifierInput : JsResult → Except (List String) ParsedInput
  | .val (.obj o) =>
    match zodParse identifierSchema o with
    | .error issues => .error issues
    | .ok _ =>
      match lookupField o "identifier" with
      | some (.str s) => .ok (.idIn s)
      | _ => .error ["identifier"]
  | _ => .error ["input"]

/-- Dispatches a validated input to the handler body of the named
operation.  The final catch-all is unreachable for inputs produced by
`parseOp` (see `inputShapeOk`). -/
def runHandler (op : OpName) (gw : Gateway) (p : ParsedInput) : HandlerResult :=
  match op, p with
  | .createAgent, .objIn o => createAgent gw o
  | .createAgentVersion, .objIn o => createAgentVersion gw o
  | .deprecateAgent, .idIn s => deprecateAgent gw s
  | .publishAgent, .idIn s => publishAgent gw s
  | .unpublishAgent, .idIn s => unpublishAgent gw s
  | .getAgentDetail, .idIn s => getAgentDetail gw s
  | .getOwnAgents, .pageIn a b => getOwnAgents gw a b
  | _, _ => (.error ⟨.INTERNAL_SERVER_ERROR, "unreachable", none⟩, [])

/-- Modelled from the spec: the tRPC procedure pipeline assembled by
`agentProcedure` (`authedProcedure` plus the `serverDatabase`,
`marketUserInfo` and `marketSDK` middleware) and `.input(schema)`, whose
implementations are not under `src/`.  Per the spec's Authorization Gate
and Validation Layer contracts: a call with no authenticated identity is
rejected with an Unauthenticated error, an input failing the operation's
schema is rejected with a Validation Error, and in both cases the
handler body never runs, so no gateway call is made. -/
def dispatch (authed : Bool) (gw : Gateway) (op : OpName) (raw : JsResult) :
    HandlerResult :=
  if authed then
    match parseOp op raw with
    | .error issues =>
      (.error ⟨.BAD_REQUEST, "Invalid input: " ++ String.intercalate ", " issues,
        none⟩, [])
    | .ok p => runHandler op gw p
  else
    (.error ⟨.UNAUTHORIZED, "UNAUTHORIZED", none⟩, [])

/-- The external error code of a handler result, if it failed. -/
def errCodeOf : Except TRPCError JsResult → Option ErrorCode
  | .error te => some te.code
  | .ok _ => none

/-- The surfaced message of a handler result, if it failed. -/
def errMessageOf : Except TRPCError JsResult → Option String
  | .error te => some te.message
  | .ok _ => none

/-- Whether a handler result succeeded. -/
def isOkResult : Except TRPCError JsResult → Bool
  | .ok _ => true
  | .error _ => false

/-- Every error path of the claims' sense is "structured": it surfaces a
`TRPCError` with a stable kind and a non-empty message.  This predicate
checks the non-empty-message half on a failed result (a successful
result vacuously satisfies it). -/
def surfacedNonEmpty : Except TRPCError JsResult → Bool
  | .error te => te.message != ""
  | .ok _ => true

/-- The part of a `TRPCError` serialized into the caller-visible
response: the code and the message.  The `cause` is kept only for
internal diagnostics (logging) and is not part of this projection, so
the original gateway error is never replayed verbatim to the caller. -/
def callerVisible (te : TRPCError) : ErrorCode × String :=
  (te.code, te.message)

/-- An agent's publication status (spec §3). -/
inductive AgentStatus where
  | published
  | unpublished
  | archived
  | deprecated
deriving DecidableEq

/-- The Marketplace Gateway's catalog state, abstracted to what the
lifecycle claims need: each identifier's status, `none` when no agent
with that identifier exists. -/
abbrev MarketState := String → Option AgentStatus

/-- Pointwise update of the catalog state. -/
def setStatus (st : MarketState) (id : String) (s : AgentStatus) : MarketState :=
  fun i => if i = id then some s else st i

/-- A gateway Conflict-class rejection (an `Error` whose name marks the
Conflict kind). -/
def conflictErr : JsThrown := .errObj "ConflictError" "agent is deprecated"

/-- A gateway NotFound rejection. -/
def notFoundErr : JsThrown := .errObj "NotFoundError" "agent not found"

/-- A gateway Conflict rejection for a duplicate identifier on create. -/
def duplicateErr : JsThrown := .errObj "ConflictError" "identifier already exists"

/-- The status requested by a `createAgent` input, defaulting to
`unpublished` (spec §4.3: the initial state is whatever `createAgent`
sets, conventionally `unpublished`). -/
def requestedStatus (o : RawObj) : AgentStatus :=
  match lookupField o "status" with
  | some (.str "published") => .published
  | some (.str "archived") => .archived
  | some (.str "deprecated") => .deprecated
  | _ => .unpublished

/-- Modelled from the spec: the Marketplace Gateway (the MarketSDK
backend, an external system whose implementation is not under `src/`).
Spec §4.3: `publish`/`unpublish` fail with Conflict when the agent is
already `deprecated` and with NotFound when the identifier is unknown;
`deprecate` always succeeds on an existing agent (idempotently) and
fails with NotFound otherwise; `createAgent` fails with Conflict on a
duplicate identifier; `createAgentVersion` fails with NotFound for an
unknown identifier and never changes the agent's status; the read
methods change nothing. -/
def gatewayStep (st : MarketState) (c : GatewayCall) : MarketState × GatewayOutcome :=
  match c.method, c.arg with
  | .publish, .idArg id =>
    match st id with
    | none => (st, .error notFoundErr)
    | some .deprecated => (st, .error conflictErr)
    | some _ => (setStatus st id .published, .ok .undefVal)
  | .unpublish, .idArg id =>
    match st id with
    | none => (st, .error notFoundErr)
    | some .deprecated => (st, .error conflictErr)
    | some _ => (setStatus st id .unpublished, .ok .undefVal)
  | .deprecate, .idArg id =>
    match st id with
    | none => (st, .error notFoundErr)
    | some _ => (setStatus st id .deprecated, .ok .undefVal)
  | .createAgent, .objArg o =>
    match lookupField o "identifier" with
    | some (.str id) =>
      match st id with
      | some _ => (st, .error duplicateErr)
      | none => (setStatus st id (requestedStatus o), .ok (.val (.obj o)))
    | _ => (st, .error (.errObj "ValidationError" "identifier required"))
  | .createAgentVersion, .objArg o =>
    match lookupField o "identifier" with
    | some (.str id) =>
      match st id with
      | none => (st, .error notFoundErr)
      | some _ => (st, .ok (.val (.obj o)))
    | _ => (st, .error notFoundErr)
  | .getAgentDetail, .idArg id =>
    match st id with
    | none => (st, .error notFoundErr)
    | some _ => (st, .ok (.val (.obj [("identifier", .str id)])))
  | .getOwnAgents, .pageArg _ _ => (st, .ok (.val (.arr [])))
  | _, _ => (st, .error (.errObj "GatewayError" "malformed gateway call"))

/-- Threads the catalog state through a list of gateway calls. -/
def applyCalls (st : MarketState) (cs : List GatewayCall) : MarketState :=
  cs.foldl (fun s c => (gatewayStep s c).1) st

/-- Runs one operation's handler body against the modelled stateful
gateway: the gateway answers each call from the current state, and the
state is advanced by the calls the handler performed. -/
def runOp (st : MarketState) (op : OpName) (p : ParsedInput) :
    Except TRPCError JsResult × MarketState :=
  let r := runHandler op (fun c => (gatewayStep st c).2) p
  (r.1, applyCalls st r.2)

/-- Runs a sequence of operations, threading the catalog state. -/
def runOps (st : MarketState) (cs : List (OpName × ParsedInput)) : MarketState :=
  cs.foldl (fun s c => (runOp s c.1 c.2).2) st

/-- Whether a handler result is a failure whose retained cause is a
Conflict-class gateway error. -/
def isConflictFailure : Except TRPCError JsResult → Bool
  | .error te =>
    match te.cause with
    | some (.errObj n _) => n == "ConflictError"
    | _ => false
  | .ok _ => false

/-- Whether a zod parse accepted its input. -/
def parseAccepts (s : List SchemaField) (o : RawObj) : Bool :=
  match zodParse s o with
  | .ok _ => true
  | .error _ => false

/-- Whether an operation's input validation rejected the raw input. -/
def parseFailed (op : OpName) (raw : JsResult) : Bool :=
  match parseOp op raw with
  | .ok _ => false
  | .error _ => true

/-- Whether a thrown value is an `Error` instance (`error instanceof
Error` in the catch blocks). -/
def isErrorInstance : JsThrown → Bool
  | .errObj _ _ => true
  | .other _ => false

/-- Whether a thrown value is an `Error` instance whose own message is
the empty string (the only case in which a catch block surfaces an
empty message). -/
def hasEmptyErrMessage : JsThrown → Bool
  | .errObj _ m => m == ""
  | .other _ => false

/-- Membership of a string value in a fixed list of literals — the check
performed by `z.enum([...])`. -/
def isEnumStr (allowed : List String) (v : JsonValue) : Bool :=
  match v with
  | .str s => allowed.contains s
  | _ => false

/-- Spec-side vocabulary: a required field must be present and satisfy
its type check. -/
def reqFieldIs (o : RawObj) (k : String) (p : JsonValue → Bool) : Bool :=
  match lookupField o k with
  | none => false
  | some v => p v

/-- Spec-side vocabulary: an optional field is type-checked if present
but never required. -/
def optFieldOk (o : RawObj) (k : String) (p : JsonValue → Bool) : Bool :=
  match lookupField o k with
  | none => true
  | some v => p v

/-- Follows the spec's words for the (amended) `createAgent` validation
contract: the input is accepted iff `identifier` is present and a
string, `name` is present and a string, and each of the optional fields
`homepage`, `isFeatured`, `status`, `tokenUsage`, `visibility` is
type-checked when present but never required.  (The original claim
additionally demanded that `identifier` and `name` be non-empty; the
source schema uses `z.string()` with no minimum length, so empty strings
are accepted — see the counterexample.) -/
def createAgentSpecAccepts (o : RawObj) : Bool :=
  optFieldOk o "homepage" JsonValue.isStr &&
  reqFieldIs o "identifier" JsonValue.isStr &&
  optFieldOk o "isFeatured" JsonValue.isBool &&
  reqFieldIs o "name" JsonValue.isStr &&
  optFieldOk o "status" (isEnumStr ["published", "unpublished", "archived", "deprecated"]) &&
  optFieldOk o "tokenUsage" JsonValue.isNum &&
  optFieldOk o "visibility" (isEnumStr ["public", "private", "internal"])

/-- A one-agent catalog (a published agent "a1") used to instantiate the
lifecycle theorems on a concrete input. -/
def sampleState : MarketState :=
  fun i => if i = "a1" then some AgentStatus.published else none

/-! ### Theorems -/

/-- C2 counterexample: the claim says only an absent/undefined gateway
result is replaced by `{ success: true }`, so a `null` result would be
returned unchanged; but `publishAgent` uses nullish coalescing, which
also replaces `null`.  At the concrete input below the caller receives
`{ success: true }`, not the unchanged `null` result. -/
theorem publish_null_result_not_unchanged :
    (publishAgent (fun _ => .ok (.val .nullV)) "agt").1 =
      .ok (.val successTrue) ∧ JsonValue.nullV ≠ successTrue := by
  refine ⟨rfl, ?_⟩
  simp [successTrue]

/-- C2 (amended): for every operation, a successful gateway result is
returned to the caller unchanged, except that the three transition
operations replace a nullish (absent/undefined or `null`) gateway
result with `{ success: true }`. -/
theorem success_passthrough_with_nullish_default (op : OpName) (p : ParsedInput)
    (h : inputShapeOk op p = true) (r : JsResult) :
    (runHandler op (fun _ => .ok r) p).1 =
      .ok (if isTransition op then .val (coalesce r successTrue) else r) := by
  cases op <;> cases p <;>
    simp_all [runHandler, inputShapeOk, isTransition, createAgent,
      createAgentVersion, deprecateAgent, getAgentDetail, getOwnAgents,
      publishAgent, unpublishAgent]

/-- Witness for `success_passthrough_with_nullish_default` at
`publishAgent` with an undefined gateway result. -/
theorem success_passthrough_with_nullish_default_witness :
    (runHandler .publishAgent (fun _ => .ok .undefVal) (.idIn "agt")).1 =
      .ok (if isTransition .publishAgent then .val (coalesce .undefVal successTrue)
           else .undefVal) :=
  success_passthrough_with_nullish_default .publishAgent (.idIn "agt") rfl .undefVal

/-- C10: for each transition operation, a `null` gateway result — not
only an absent/undefined one — is coerced into `{ success: true }` (the
result is combined with the default via nullish coalescing), while any
non-nullish gateway result is returned unchanged. -/
theorem transition_nullish_coercion (op : OpName) (h : isTransition op = true)
    (id : String) (v : JsonValue) (hv : v ≠ JsonValue.nullV) :
    (runHandler op (fun _ => .ok (.val .nullV)) (.idIn id)).1 =
      .ok (.val successTrue) ∧
    (runHandler op (fun _ => .ok .undefVal) (.idIn id)).1 =
      .ok (.val successTrue) ∧
    (runHandler op (fun _ => .ok (.val v)) (.idIn id)).1 = .ok (.val v) := by
  cases op <;> cases v <;>
    simp_all [isTransition, runHandler, deprecateAgent, publishAgent,
      unpublishAgent, coalesce]

/-- Witness for `transition_nullish_coercion` at `deprecateAgent` with a
non-null object result. -/
theorem transition_nullish_coercion_witness :
    (runHandler .deprecateAgent (fun _ => .ok (.val .nullV)) (.idIn "agt")).1 =
      .ok (.val successTrue) ∧
    (runHandler .deprecateAgent (fun _ => .ok .undefVal) (.idIn "agt")).1 =
      .ok (.val successTrue) ∧
    (runHandler .deprecateAgent (fun _ => .ok (.val (.bool true))) (.idIn "agt")).1 =
      .ok (.val (.bool true)) :=
  transition_nullish_coercion .deprecateAgent rfl "agt" (.bool true) (by simp)

/-- C3: every gateway-raised error is re-raised as the normalized
`TRPCError` of the operation's catch block: stable kind
`INTERNAL_SERVER_ERROR`, a message that falls back to the generic
operation-specific message whenever the thrown value is not an `Error`
instance (and so provides no message), and the original error retained
as the diagnostic `cause`; the caller-visible projection of that error
carries only the kind and the message, never the original error. -/
theorem gateway_error_normalized (op : OpName) (p : ParsedInput)
    (h : inputShapeOk op p = true) (e : JsThrown) :
    (runHandler op (fun _ => .error e) p).1 =
      .error (normalizedError (fallbackFor op) e) ∧
    (isErrorInstance e = false →
      thrownMessage e (fallbackFor op) = fallbackFor op) ∧
    (normalizedError (fallbackFor op) e).cause = some e ∧
    callerVisible (normalizedError (fallbackFor op) e) =
      (ErrorCode.INTERNAL_SERVER_ERROR, thrownMessage e (fallbackFor op)) := by
  cases op <;> cases p <;> cases e <;>
    simp_all [runHandler, inputShapeOk, createAgent, createAgentVersion,
      deprecateAgent, getAgentDetail, getOwnAgents, publishAgent,
      unpublishAgent, normalizedError, thrownMessage, isErrorInstance,
      callerVisible, fallbackFor]

/-- Witness for `gateway_error_normalized` at `createAgent` with a
non-`Error` thrown value. -/
theorem gateway_error_normalized_witness :
    (runHandler .createAgent (fun _ => .error (.other (.str "boom"))) (.objIn [])).1 =
      .error (normalizedError (fallbackFor .createAgent) (.other (.str "boom"))) ∧
    (isErrorInstance (JsThrown.other (.str "boom")) = false →
      thrownMessage (.other (.str "boom")) (fallbackFor .createAgent) =
        fallbackFor .createAgent) ∧
    (normalizedError (fallbackFor .createAgent) (.other (.str "boom"))).cause =
      some (.other (.str "boom")) ∧
    callerVisible (normalizedError (fallbackFor .createAgent) (.other (.str "boom"))) =
      (ErrorCode.INTERNAL_SERVER_ERROR,
        thrownMessage (.other (.str "boom")) (fallbackFor .createAgent)) :=
  gateway_error_normalized .createAgent (.objIn []) rfl (.other (.str "boom"))

/-- C9: for every operation and every gateway-raised error — whatever
its internal kind (the `name` of the thrown `Error`: NotFound, Conflict,
Forbidden, ValidationError, or anything else) — the error code surfaced
to the caller is exactly `INTERNAL_SERVER_ERROR`; no operation maps an
internal kind to a finer-grained external code. -/
theorem external_code_always_internal_server_error (op : OpName) (p : ParsedInput)
    (h : inputShapeOk op p = true) (e : JsThrown) :
    errCodeOf (runHandler op (fun _ => .error e) p).1 =
      some ErrorCode.INTERNAL_SERVER_ERROR := by
  cases op <;> cases p <;>
    simp_all [runHandler, inputShapeOk, createAgent, createAgentVersion,
      deprecateAgent, getAgentDetail, getOwnAgents, publishAgent,
      unpublishAgent, normalizedError, errCodeOf]

/-- Witness for `external_code_always_internal_server_error` at
`getOwnAgents` with a Conflict-kind gateway error. -/
theorem external_code_always_internal_server_error_witness :
    errCodeOf (runHandler .getOwnAgents
        (fun _ => .error (.errObj "ConflictError" "nope")) (.pageIn none none)).1 =
      some ErrorCode.INTERNAL_SERVER_ERROR :=
  external_code_always_internal_server_error .getOwnAgents (.pageIn none none)
    rfl (.errObj "ConflictError" "nope")

/-- C4: every operation performs exactly one Marketplace-Gateway call
per handler invocation, to the single correspondingly named method of
the fixed set (`GatewayMethod` has no other inhabitant), for every
gateway behavior; in particular no transition operation reads the
agent's status before writing — there is no second (read) call. -/
theorem single_corresponding_gateway_call (op : OpName) (p : ParsedInput)
    (h : inputShapeOk op p = true) (gw : Gateway) :
    ((runHandler op gw p).2).length = 1 ∧
    ((runHandler op gw p).2).all (fun c => c.method == methodFor op) = true := by
  cases op <;> cases p <;>
    simp_all [runHandler, inputShapeOk, methodFor, createAgent,
      createAgentVersion, deprecateAgent, getAgentDetail, getOwnAgents,
      publishAgent, unpublishAgent]

/-- Witness for `single_corresponding_gateway_call` at `deprecateAgent`
against a gateway that rejects every call. -/
theorem single_corresponding_gateway_call_witness :
    ((runHandler .deprecateAgent (fun _ => .error notFoundErr) (.idIn "agt")).2).length = 1 ∧
    ((runHandler .deprecateAgent (fun _ => .error notFoundErr) (.idIn "agt")).2).all
      (fun c => c.method == methodFor .deprecateAgent) = true :=
  single_corresponding_gateway_call .deprecateAgent (.idIn "agt") rfl
    (fun _ => .error notFoundErr)

/-- C5: a call lacking an authenticated identity is rejected with the
Unauthenticated error, and a raw input failing the operation's schema is
rejected with the Validation error; in both cases the rejection is local
— the gateway-call trace of the invocation is empty. -/
theorem local_rejection_no_gateway_call (authed : Bool) (gw : Gateway)
    (op : OpName) (raw : JsResult)
    (h : authed = false ∨ parseFailed op raw = true) :
    (dispatch authed gw op raw).2 = [] ∧
    errCodeOf (dispatch authed gw op raw).1 =
      some (if authed then ErrorCode.BAD_REQUEST else ErrorCode.UNAUTHORIZED) := by
  cases authed with
  | false => exact ⟨rfl, rfl⟩
  | true =>
    rcases h with h | h
    · cases h
    · cases hp : parseOp op raw with
      | ok p =>
        simp [parseFailed, hp] at h
      | error issues =>
        simp [dispatch, hp, errCodeOf]

/-- Witness for `local_rejection_no_gateway_call`: an authenticated
`createAgent` call whose input is missing both required fields. -/
theorem local_rejection_no_gateway_call_witness :
    (dispatch true (fun _ => .ok .undefVal) .createAgent (.val (.obj []))).2 = [] ∧
    errCodeOf (dispatch true (fun _ => .ok .undefVal) .createAgent (.val (.obj []))).1 =
      some (if true then ErrorCode.BAD_REQUEST else ErrorCode.UNAUTHORIZED) :=
  local_rejection_no_gateway_call true (fun _ => .ok .undefVal) .createAgent
    (.val (.obj [])) (Or.inr rfl)

/-- Helper: a schema's issue list is empty exactly when every field
check passes. -/
theorem schemaIssues_nil_iff (s : List SchemaField) (o : RawObj) :
    schemaIssues s o = [] ↔ s.all (checkField o) = true := by
  simp [schemaIssues, List.filter_eq_nil_iff, List.all_eq_true]

/-- Helper: zod acceptance is the conjunction of all field checks. -/
theorem parseAccepts_eq_all (s : List SchemaField) (o : RawObj) :
    parseAccepts s o = s.all (checkField o) := by
  cases hall : s.all (checkField o) with
  | true =>
    have h := (schemaIssues_nil_iff s o).mpr hall
    simp [parseAccepts, zodParse, h]
  | false =>
    rcases h : schemaIssues s o with _ | ⟨k, rest⟩
    · exact absurd ((schemaIssues_nil_iff s o).mp h) (by simp [hall])
    · simp [parseAccepts, zodParse, h]

/-- C7: validation checks all fields rather than stopping at the first
failure — for the object schemas of `agent.ts`, a field key appears in
the reported issue list exactly when that schema field fails on the raw
input, and whenever any field fails the parse rejects with that complete
issue list.  (Validation is a pure function of the raw input: it
performs no side effect by construction.) -/
theorem validation_reports_every_failing_field (s : List SchemaField)
    (hs : s = createAgentSchema ∨ s = createAgentVersionSchema ∨
      s = identifierSchema ∨ s = paginationSchema)
    (o : RawObj) (k : String) :
    (k ∈ schemaIssues s o ↔
      s.any (fun f => !checkField o f && f.key == k) = true) ∧
    (schemaIssues s o ≠ [] → zodParse s o = .error (schemaIssues s o)) := by
  constructor
  · simp [schemaIssues, List.mem_map, List.mem_filter, List.any_eq_true,
      Bool.and_eq_true, beq_iff_eq, and_assoc]
  · intro h
    rcases hh : schemaIssues s o with _ | ⟨a, rest⟩
    · exact absurd hh h
    · rw [zodParse, hh]

/-- Witness for `validation_reports_every_failing_field`: a `createAgent`
input with a non-string `identifier` and a missing `name` reports the
`identifier` failure (and, by the same theorem at the key "name", the
`name` failure as well — both appear in one issue list). -/
theorem validation_reports_every_failing_field_witness :
    ("identifier" ∈ schemaIssues createAgentSchema [("identifier", .bool true)] ↔
      createAgentSchema.any
        (fun f => !checkField [("identifier", .bool true)] f &&
          f.key == "identifier") = true) ∧
    (schemaIssues createAgentSchema [("identifier", .bool true)] ≠ [] →
      zodParse createAgentSchema [("identifier", .bool true)] =
        .error (schemaIssues createAgentSchema [("identifier", .bool true)])) :=
  validation_reports_every_failing_field createAgentSchema (Or.inl rfl)
    [("identifier", .bool true)] "identifier"

/-- C6 counterexample: the claim requires a non-empty `identifier` and
`name`, but `createAgentSchema` uses `z.string()` with no minimum
length, so the input with both fields set to the empty string is
accepted instead of yielding a ValidationError. -/
theorem createAgent_accepts_empty_identifier_and_name :
    parseAccepts createAgentSchema
      [("identifier", .str ""), ("name", .str "")] = true := rfl

/-- Helper: a required schema field check in terms of the spec-side
vocabulary. -/
theorem checkField_req_eq (o : RawObj) (k : String) (fs : FieldSpec)
    (p : JsonValue → Bool) (hp : ∀ v, checkValue fs v = p v) :
    checkField o ⟨k, fs, true⟩ = reqFieldIs o k p := by
  simp only [checkField, reqFieldIs]
  cases lookupField o k with
  | none => rfl
  | some v => exact hp v

/-- Helper: an optional schema field check in terms of the spec-side
vocabulary. -/
theorem checkField_opt_eq (o : RawObj) (k : String) (fs : FieldSpec)
    (p : JsonValue → Bool) (hp : ∀ v, checkValue fs v = p v) :
    checkField o ⟨k, fs, false⟩ = optFieldOk o k p := by
  simp only [checkField, optFieldOk]
  cases lookupField o k with
  | none => rfl
  | some v => exact hp v

/-- C6 (amended): `createAgent` input validation accepts an input iff
`identifier` is present and a string and `name` is present and a string
(empty strings included); the optional fields `homepage`, `isFeatured`,
`status`, `tokenUsage`, `visibility` are type-checked when present but
never required; a missing or non-string `identifier` or `name` yields a
ValidationError. -/
theorem createAgent_validation_characterized (o : RawObj) :
    parseAccepts createAgentSchema o = createAgentSpecAccepts o := by
  rw [parseAccepts_eq_all]
  simp only [createAgentSchema, List.all_cons, List.all_nil, Bool.and_true]
  rw [checkField_opt_eq o "homepage" .str JsonValue.isStr (fun _ => rfl),
    checkField_req_eq o "identifier" .str JsonValue.isStr (fun _ => rfl),
    checkField_opt_eq o "isFeatured" .bool JsonValue.isBool (fun _ => rfl),
    checkField_req_eq o "name" .str JsonValue.isStr (fun _ => rfl),
    checkField_opt_eq o "status"
      (.strEnum ["published", "unpublished", "archived", "deprecated"])
      (isEnumStr ["published", "unpublished", "archived", "deprecated"])
      (fun v => by cases v <;> rfl),
    checkField_opt_eq o "tokenUsage" .num JsonValue.isNum (fun _ => rfl),
    checkField_opt_eq o "visibility"
      (.strEnum ["public", "private", "internal"])
      (isEnumStr ["public", "private", "internal"])
      (fun v => by cases v <;> rfl)]
  simp only [createAgentSpecAccepts, Bool.and_assoc]

/-- C8 counterexample: a gateway error that is an `Error` instance with
an empty own message is surfaced with an empty message string — the
structured envelope and the stable kind are kept, but the claimed
non-emptiness fails at this input. -/
theorem empty_error_message_surfaced :
    surfacedNonEmpty (createAgent (fun _ => .error (.errObj "Error" "")) []).1 =
      false ∧
    errCodeOf (createAgent (fun _ => .error (.errObj "Error" "")) []).1 =
      some ErrorCode.INTERNAL_SERVER_ERROR := ⟨rfl, rfl⟩

/-- C8 (amended): every error a handler surfaces from a gateway failure
is a structured `TRPCError` with the stable kind
`INTERNAL_SERVER_ERROR` and a message string, and that message is
non-empty except when the gateway error is an `Error` instance whose
own message is empty. -/
theorem surfaced_errors_structured (op : OpName) (p : ParsedInput)
    (e : JsThrown) (h : inputShapeOk op p = true)
    (he : hasEmptyErrMessage e = false) :
    errCodeOf (runHandler op (fun _ => .error e) p).1 =
      some ErrorCode.INTERNAL_SERVER_ERROR ∧
    surfacedNonEmpty (runHandler op (fun _ => .error e) p).1 = true := by
  cases op <;> cases p <;> cases e <;>
    simp_all [runHandler, inputShapeOk, createAgent, createAgentVersion,
      deprecateAgent, getAgentDetail, getOwnAgents, publishAgent,
      unpublishAgent, normalizedError, errCodeOf, surfacedNonEmpty,
      thrownMessage, hasEmptyErrMessage, fallbackFor]

/-- Witness for `surfaced_errors_structured` at `getAgentDetail` with a
NotFound-kind gateway error. -/
theorem surfaced_errors_structured_witness :
    errCodeOf (runHandler .getAgentDetail
        (fun _ => .error (.errObj "NotFoundError" "agent not found"))
        (.idIn "agt")).1 = some ErrorCode.INTERNAL_SERVER_ERROR ∧
    surfacedNonEmpty (runHandler .getAgentDetail
        (fun _ => .error (.errObj "NotFoundError" "agent not found"))
        (.idIn "agt")).1 = true :=
  surfaced_errors_structured .getAgentDetail (.idIn "agt")
    (.errObj "NotFoundError" "agent not found") rfl rfl

/-- Helper: no single gateway call moves an agent out of `deprecated` in
the modelled gateway. -/
theorem gatewayStep_preserves_deprecated (st : MarketState) (id : String)
    (h : st id = some AgentStatus.deprecated) (c : GatewayCall) :
    (gatewayStep st c).1 id = some AgentStatus.deprecated := by
  obtain ⟨m, a⟩ := c
  cases m <;> cases a <;>
    simp only [gatewayStep] <;>
    (try exact h) <;>
    (repeat' split) <;>
    (try exact h) <;>
    simp_all [setStatus] <;>
    (intro hid; subst hid; simp_all)

/-- Helper: no operation of the core moves an agent out of `deprecated`
when run against the modelled gateway. -/
theorem runOp_preserves_deprecated (st : MarketState) (id : String)
    (h : st id = some AgentStatus.deprecated) (op : OpName) (p : ParsedInput) :
    (runOp st op p).2 id = some AgentStatus.deprecated := by
  cases op <;> cases p <;>
    simp only [runOp, runHandler, createAgent, createAgentVersion,
      deprecateAgent, getAgentDetail, getOwnAgents, publishAgent,
      unpublishAgent, applyCalls, List.foldl] <;>
    first
      | exact h
      | exact gatewayStep_preserves_deprecated st id h _

/-- Helper: no sequence of operations moves an agent out of
`deprecated`. -/
theorem runOps_preserves_deprecated (cs : List (OpName × ParsedInput))
    (st : MarketState) (id : String)
    (h : st id = some AgentStatus.deprecated) :
    runOps st cs id = some AgentStatus.deprecated := by
  induction cs generalizing st with
  | nil => exact h
  | cons c rest ih =>
    exact ih _ (runOp_preserves_deprecated st id h c.1 c.2)

/-- Helper: publishing a deprecated agent fails with a Conflict-class
error and leaves the status `deprecated`. -/
theorem publish_deprecated_conflict (st : MarketState) (id : String)
    (h : st id = some AgentStatus.deprecated) :
    isConflictFailure (runOp st .publishAgent (.idIn id)).1 = true ∧
    (runOp st .publishAgent (.idIn id)).2 id = some AgentStatus.deprecated := by
  constructor
  · simp [runOp, runHandler, publishAgent, gatewayStep, h, isConflictFailure,
      normalizedError, conflictErr]
  · exact runOp_preserves_deprecated st id h .publishAgent (.idIn id)

/-- Helper: unpublishing a deprecated agent fails with a Conflict-class
error and leaves the status `deprecated`. -/
theorem unpublish_deprecated_conflict (st : MarketState) (id : String)
    (h : st id = some AgentStatus.deprecated) :
    isConflictFailure (runOp st .unpublishAgent (.idIn id)).1 = true ∧
    (runOp st .unpublishAgent (.idIn id)).2 id = some AgentStatus.deprecated := by
  constructor
  · simp [runOp, runHandler, unpublishAgent, gatewayStep, h, isConflictFailure,
      normalizedError, conflictErr]
  · exact runOp_preserves_deprecated st id h .unpublishAgent (.idIn id)

/-- Helper: deprecating an existing agent succeeds and sets the status
to `deprecated`. -/
theorem deprecate_existing_succeeds (st : MarketState) (id : String)
    (s0 : AgentStatus) (h : st id = some s0) :
    isOkResult (runOp st .deprecateAgent (.idIn id)).1 = true ∧
    (runOp st .deprecateAgent (.idIn id)).2 id = some AgentStatus.deprecated := by
  constructor
  · simp [runOp, runHandler, deprecateAgent, gatewayStep, h, isOkResult,
      coalesce]
  · simp [runOp, runHandler, deprecateAgent, gatewayStep, h, applyCalls,
      setStatus]

/-- C1: deprecation is terminal.  Once `deprecateAgent(id)` has
succeeded on an existing agent, then after any further sequence of
operations of this core, a `publishAgent(id)` or `unpublishAgent(id)`
call fails with a Conflict-class error and the agent's status remains
`deprecated`; moreover no single operation (the final `op`/`p` pair)
moves the agent out of `deprecated`.  The gateway's transition rules are
modelled from the spec (`gatewayStep`). -/
theorem deprecation_terminal (st : MarketState) (id : String) (s0 : AgentStatus)
    (h : st id = some s0) (ops : List (OpName × ParsedInput))
    (op : OpName) (p : ParsedInput) :
    isOkResult (runOp st .deprecateAgent (.idIn id)).1 = true ∧
    (runOp st .deprecateAgent (.idIn id)).2 id = some AgentStatus.deprecated ∧
    runOps ((runOp st .deprecateAgent (.idIn id)).2) ops id =
      some AgentStatus.deprecated ∧
    isConflictFailure
      (runOp (runOps ((runOp st .deprecateAgent (.idIn id)).2) ops)
        .publishAgent (.idIn id)).1 = true ∧
    (runOp (runOps ((runOp st .deprecateAgent (.idIn id)).2) ops)
      .publishAgent (.idIn id)).2 id = some AgentStatus.deprecated ∧
    isConflictFailure
      (runOp (runOps ((runOp st .deprecateAgent (.idIn id)).2) ops)
        .unpublishAgent (.idIn id)).1 = true ∧
    (runOp (runOps ((runOp st .deprecateAgent (.idIn id)).2) ops)
      .unpublishAgent (.idIn id)).2 id = some AgentStatus.deprecated ∧
    (runOp (runOps ((runOp st .deprecateAgent (.idIn id)).2) ops) op p).2 id =
      some AgentStatus.deprecated := by
  obtain ⟨hok, hdep⟩ := deprecate_existing_succeeds st id s0 h
  have hseq := runOps_preserves_deprecated ops _ id hdep
  obtain ⟨hpc, hps⟩ := publish_deprecated_conflict _ id hseq
  obtain ⟨huc, hus⟩ := unpublish_deprecated_conflict _ id hseq
  exact ⟨hok, hdep, hseq, hpc, hps, huc, hus,
    runOp_preserves_deprecated _ id hseq op p⟩

/-- Witness for `deprecation_terminal`: the published agent "a1" of
`sampleState`, deprecated, then probed by a `getAgentDetail` call. -/
theorem deprecation_terminal_witness :
    isOkResult (runOp sampleState .deprecateAgent (.idIn "a1")).1 = true ∧
    (runOp sampleState .deprecateAgent (.idIn "a1")).2 "a1" =
      some AgentStatus.deprecated ∧
    runOps ((runOp sampleState .deprecateAgent (.idIn "a1")).2)
      [(.getAgentDetail, .idIn "a1")] "a1" = some AgentStatus.deprecated ∧
    isConflictFailure
      (runOp (runOps ((runOp sampleState .deprecateAgent (.idIn "a1")).2)
          [(.getAgentDetail, .idIn "a1")])
        .publishAgent (.idIn "a1")).1 = true ∧
    (runOp (runOps ((runOp sampleState .deprecateAgent (.idIn "a1")).2)
        [(.getAgentDetail, .idIn "a1")])
      .publishAgent (.idIn "a1")).2 "a1" = some AgentStatus.deprecated ∧
    isConflictFailure
      (runOp (runOps ((runOp sampleState .deprecateAgent (.idIn "a1")).2)
          [(.getAgentDetail, .idIn "a1")])
        .unpublishAgent (.idIn "a1")).1 = true ∧
    (runOp (runOps ((runOp sampleState .deprecateAgent (.idIn "a1")).2)
        [(.getAgentDetail, .idIn "a1")])
      .unpublishAgent (.idIn "a1")).2 "a1" = some AgentStatus.deprecated ∧
    (runOp (runOps ((runOp sampleState .deprecateAgent (.idIn "a1")).2)
        [(.getAgentDetail, .idIn "a1")]) .createAgent
      (.objIn [("identifier", .str "a1"), ("name", .str "Test")])).2 "a1" =
      some AgentStatus.deprecated :=
  deprecation_terminal sampleState "a1" .published (by simp [sampleState])
    [(.getAgentDetail, .idIn "a1")] .createAgent
    (.objIn [("identifier", .str "a1"), ("name", .str "Test")])
